import Mathlib

/-!
Shallow embedding of the AI Video Summarizer & Quiz Generator repository
(`streamlit_app.py`, `utils.py`, the two batch scripts), together with
theorems settling the specification claims about it.

Conventions:
* Python byte/character counts become `Nat`; the floating-point division
  `size / (1024 * 1024)` in `validate_video_file` is modelled exactly over `ℚ`
  (the divisor is a power of two, so the float computation is exact for all
  representable integer sizes).
* Fallible Python code (exceptions) is modelled with `Except`/`Option`;
  functions that catch every exception become total Lean functions.
* The hosted-model network calls are oracles: an attempt sequence
  `Nat → Except String String` gives, for each attempt index, either the
  extracted response text or a raised exception.
-/

namespace VideoQuiz

/-! ## Uploaded-file validation (`streamlit_app.py`, lines 32-34 and 74-97) -/

/-- `MAX_FILE_SIZE_MB = 500` (streamlit_app.py line 33). -/
def MAX_FILE_SIZE_MB : Nat := 500

/-- `SUPPORTED_VIDEO_FORMATS` (streamlit_app.py line 34). -/
def SUPPORTED_VIDEO_FORMATS : List String :=
  ["mp4", "avi", "mov", "mkv", "webm", "flv", "m4v"]

/-- A Streamlit `UploadedFile`: the two attributes `validate_video_file`
reads are `.name` and `.size` (bytes). -/
structure UploadedFile where
  name : String
  size : Nat
deriving DecidableEq, Repr

/-- Python `str.lower()`, charwise over the character list (agrees with the
Python method on ASCII, which is all the validation compares against). -/
def pyLower (s : String) : String :=
  String.mk (s.toList.map Char.toLower)

/-- Python `str.strip()`: drop leading and trailing whitespace. -/
def pyStrip (s : String) : String :=
  String.mk
    (((s.toList.dropWhile Char.isWhitespace).reverse.dropWhile
      Char.isWhitespace).reverse)

/-- Python `str.split(sep)` for a one-character separator, over the
character list of the string.  `"".split('.') = ['']`, `"a.b".split('.') =
['a','b']`, `"a.".split('.') = ['a','']`. -/
def pySplitChar (sep : Char) : List Char → List (List Char)
  | [] => [[]]
  | c :: rest =>
    let r := pySplitChar sep rest
    if c = sep then [] :: r
    else
      match r with
      | [] => [[c]]
      | hd :: tl => (c :: hd) :: tl

/-- `uploaded_file.name.split('.')[-1].lower()` (streamlit_app.py line 86):
the lowercased text after the last dot (the whole lowercased name when the
name has no dot). -/
def file_extension_of (name : String) : String :=
  pyLower (String.mk ((pySplitChar '.' name.toList).getLastD []))

/-- The distinct user-facing messages produced by `validate_video_file`
(streamlit_app.py lines 78, 83, 88, 92, 94); the interpolated numbers of the
size message are abstracted away. -/
inductive ValidationMsg where
  | noFileUploaded
  | exceedsMaxSize
  | unsupportedFormat
  | fileIsEmpty
  | validationSuccessful
deriving DecidableEq, Repr

/-- `validate_video_file` (streamlit_app.py lines 74-97): presence check,
then size check (`uploaded_file.size / (1024*1024) > MAX_FILE_SIZE_MB`),
then extension check against `SUPPORTED_VIDEO_FORMATS`, then zero-size
check; first failing check returns `False` with its message. -/
def validate_video_file (uploaded_file : Option UploadedFile) :
    Bool × ValidationMsg :=
  match uploaded_file with
  | none => (false, .noFileUploaded)
  | some f =>
    let file_size_mb : ℚ := (f.size : ℚ) / (1024 * 1024)
    if file_size_mb > (MAX_FILE_SIZE_MB : ℚ) then
      (false, .exceedsMaxSize)
    else
      let file_extension := file_extension_of f.name
      if file_extension ∉ SUPPORTED_VIDEO_FORMATS then
        (false, .unsupportedFormat)
      else if f.size = 0 then
        (false, .fileIsEmpty)
      else
        (true, .validationSuccessful)

/-! ## The bounded retry loop (streamlit_app.py, lines 341-418 and 433-496)

Both interactive pipeline steps run the same loop shape:

    max_retries = 3; retry_count = 0; success = False
    while retry_count < max_retries and not success:
        try:
            <attempt>; success = True
        except Exception:
            retry_count += 1
            if retry_count >= max_retries: <surface error; cleanup; stop>
            time.sleep(2)

An attempt is an oracle `Nat → Option α`: `some v` when attempt `i` runs to
the end of the `try` block producing value `v`, `none` when it raises. -/

/-- `max_retries = 3` (streamlit_app.py line 341). -/
def max_retries : Nat := 3

/-- The argument of each `time.sleep` call in the retry loops
(streamlit_app.py lines 418 and 496). -/
def sleep_interval_seconds : Nat := 2

/-- Result of a retry loop: the produced value (on success), the number of
attempts actually made, and the log of `time.sleep` durations executed, in
order. -/
inductive RetryResult (α : Type) where
  | success (val : α) (attemptsMade : Nat) (sleepLog : List Nat)
  | failure (attemptsMade : Nat) (sleepLog : List Nat)
deriving DecidableEq, Repr

/-- One pass of the `while retry_count < max_retries and not success` loop;
`remaining = max_retries - retry_count` counts the iterations the loop
condition still allows, so `remaining = 0` is the loop condition failing. -/
def retryLoopAux (attempt : Nat → Option α) :
    Nat → Nat → List Nat → RetryResult α
  | 0, retryCount, sleepLog => .failure retryCount sleepLog
  | remaining + 1, retryCount, sleepLog =>
    match attempt retryCount with
    | some v => .success v (retryCount + 1) sleepLog
    | none =>
      if remaining = 0 then
        .failure (retryCount + 1) sleepLog
      else
        retryLoopAux attempt remaining (retryCount + 1)
          (sleepLog ++ [sleep_interval_seconds])

/-- The whole retry loop, entered with `retry_count = 0`. -/
def retryLoop (attempt : Nat → Option α) (maxRetries : Nat) : RetryResult α :=
  retryLoopAux attempt maxRetries 0 []

/-- The analysis attempt body (streamlit_app.py lines 389-405): the model
call either raises (`Except.error`) or yields the extracted `knowledge_text`;
`if not knowledge_text or len(knowledge_text.strip()) < 50: raise ValueError`
makes a short response count as a failed attempt. -/
def analysisAttempt (responses : Nat → Except String String) (i : Nat) :
    Option String :=
  match responses i with
  | .error _ => none
  | .ok knowledge_text =>
    if knowledge_text.isEmpty || (pyStrip knowledge_text).length < 50 then none
    else some knowledge_text

/-- The quiz attempt body (streamlit_app.py lines 475-483), with the
100-character floor `if not quiz_content or len(quiz_content.strip()) < 100`. -/
def quizAttempt (responses : Nat → Except String String) (i : Nat) :
    Option String :=
  match responses i with
  | .error _ => none
  | .ok quiz_content =>
    if quiz_content.isEmpty || (pyStrip quiz_content).length < 100 then none
    else some quiz_content

/-! ## Temp-file cleanup (`cleanup_temp_files`, streamlit_app.py lines 115-123) -/

/-- A line written to the logger by `cleanup_temp_files`. -/
inductive LogEntry where
  | info (path : String)
  | warning (path : String) (err : String)
deriving DecidableEq, Repr

/-- The body of the per-file loop of `cleanup_temp_files`: `os.path.exists`
is the oracle `exists_`, `os.unlink` the oracle `unlink` (raising modelled by
`Except.error`); a raise is caught and logged as a warning. -/
def cleanupEntry (exists_ : String → Bool) (unlink : String → Except String Unit)
    (file_path : String) : List LogEntry :=
  if exists_ file_path then
    match unlink file_path with
    | .ok _ => [.info file_path]
    | .error e => [.warning file_path e]
  else []

/-- `cleanup_temp_files` (streamlit_app.py lines 115-123): iterates over all
paths, deleting each existing one, catching and logging any per-file error;
always returns normally with the log it produced. -/
def cleanup_temp_files (exists_ : String → Bool)
    (unlink : String → Except String Unit) : List String → List LogEntry
  | [] => []
  | file_path :: rest =>
    cleanupEntry exists_ unlink file_path ++ cleanup_temp_files exists_ unlink rest

/-! ## Session state and the processing run (streamlit_app.py, lines 38-49,
225-273 and 291-567) -/

/-- The five `st.session_state` fields touched by the app
(`initialize_session_state`, streamlit_app.py lines 38-49). -/
structure SessionState where
  analysis_results : Option String
  quiz_results : Option String
  processed_file_hash : Option String
  api_keys_validated : Bool
  processing_status : String
deriving DecidableEq, Repr

/-- The state `initialize_session_state` establishes on a fresh session. -/
def initialState : SessionState :=
  { analysis_results := none
    quiz_results := none
    processed_file_hash := none
    api_keys_validated := false
    processing_status := "idle" }

/-- The per-run inputs of the analyze branch: the path of the temporary file
written at line 313, whether reading it back succeeds with nonempty bytes
(lines 322-329), and the two model-call oracles. -/
structure RunInputs where
  videoPath : String
  loadOk : Bool
  analysisResponses : Nat → Except String String
  quizResponses : Nat → Except String String

/-- How the analyze branch exits. -/
inductive RunOutcome where
  | loadFailure
  | analysisFailed
  | quizFailed
  | completed
deriving DecidableEq, Repr

/-- The observable result of one analyze run: the session state left behind,
the exit taken, and the argument of the `cleanup_temp_files` call made on
that exit path (`none` would mean no cleanup happened). -/
structure RunResult where
  state : SessionState
  outcome : RunOutcome
  cleanupCalledWith : Option (List String)
deriving Repr

/-- The analyze branch (streamlit_app.py lines 291-516): set
`processing_status = "processing"` (293), write the temp file
(`temp_files = [video_path]`, 313-316), load it (322-335), run the analysis
retry loop (341-418), store `analysis_results` (421), run the quiz retry
loop (433-496), store `quiz_results` then `processed_file_hash` (499-500),
clean up (509) and return to `"idle"` (516); every failure exit calls
`cleanup_temp_files(temp_files)` and resets the status to `"idle"` before
stopping (333-335, 413-415, 491-493). -/
def processRun (s : SessionState) (file_hash : String) (inp : RunInputs) :
    RunResult :=
  let s1 : SessionState := { s with processing_status := "processing" }
  let temp_files : List String := [inp.videoPath]
  if ¬ inp.loadOk then
    { state := { s1 with processing_status := "idle" }
      outcome := .loadFailure
      cleanupCalledWith := some temp_files }
  else
    match retryLoop (analysisAttempt inp.analysisResponses) max_retries with
    | .failure _ _ =>
      { state := { s1 with processing_status := "idle" }
        outcome := .analysisFailed
        cleanupCalledWith := some temp_files }
    | .success knowledge_text _ _ =>
      let s2 : SessionState := { s1 with analysis_results := some knowledge_text }
      match retryLoop (quizAttempt inp.quizResponses) max_retries with
      | .failure _ _ =>
        { state := { s2 with processing_status := "idle" }
          outcome := .quizFailed
          cleanupCalledWith := some temp_files }
      | .success quiz_content _ _ =>
        let s3 : SessionState :=
          { s2 with
            quiz_results := some quiz_content
            processed_file_hash := some file_hash }
        { state := { s3 with processing_status := "idle" }
          outcome := .completed
          cleanupCalledWith := some temp_files }

/-- The outer `except Exception` handler (streamlit_app.py lines 540-557):
whatever intermediate state the exception interrupted, it calls
`cleanup_temp_files(temp_files)` and resets `processing_status` to
`"idle"`, leaving every other session field untouched. -/
def outerExceptionHandler (s : SessionState) (temp_files : List String) :
    SessionState × Option (List String) :=
  ({ s with processing_status := "idle" }, some temp_files)

/-- Python truthiness of an `Optional[str]`: `None` and `""` are falsy. -/
def truthy : Option String → Bool
  | none => false
  | some s => !s.isEmpty

/-- The cached-results guard (streamlit_app.py lines 229-231):
`processed_file_hash == file_hash and analysis_results and quiz_results`. -/
def cacheHit (s : SessionState) (file_hash : String) : Bool :=
  (s.processed_file_hash == some file_hash) &&
    truthy s.analysis_results && truthy s.quiz_results

/-- The Reprocess Video button handler (streamlit_app.py lines 249-253):
clears the three cache fields and reruns the script. -/
def reprocessReset (s : SessionState) : SessionState :=
  { s with
    analysis_results := none
    quiz_results := none
    processed_file_hash := none }

/-- A user interaction during one script execution with a file uploaded:
look at the page (no button), click Reprocess Video, or click Analyze
Video. -/
inductive UserEvent where
  | view
  | reprocessClick
  | analyzeClick (inp : RunInputs)

/-- The observable result of one script execution with an uploaded file:
the session state afterwards, whether the processing pipeline (with its
model calls) ran, the description/quiz pair displayed to the user (when one
was), and the run outcome (when the pipeline ran). -/
structure StepResult where
  state : SessionState
  pipelineRan : Bool
  servedAnalysis : Option String
  servedQuiz : Option String
  runOutcome : Option RunOutcome

/-- One top-to-bottom script execution with a file whose bytes hash to
`file_hash` (streamlit_app.py lines 225-291 plus the analyze branch): a
cache hit displays the stored results and `st.stop()`s before the
processing section (only the Reprocess button is actionable there);
otherwise clicking Analyze Video runs `processRun`. -/
def scriptStep (s : SessionState) (file_hash : String) (ev : UserEvent) :
    StepResult :=
  if cacheHit s file_hash then
    match ev with
    | .reprocessClick =>
      { state := reprocessReset s
        pipelineRan := false
        servedAnalysis := s.analysis_results
        servedQuiz := s.quiz_results
        runOutcome := none }
    | _ =>
      { state := s
        pipelineRan := false
        servedAnalysis := s.analysis_results
        servedQuiz := s.quiz_results
        runOutcome := none }
  else
    match ev with
    | .analyzeClick inp =>
      let r := processRun s file_hash inp
      { state := r.state
        pipelineRan := true
        servedAnalysis := r.state.analysis_results
        servedQuiz := r.state.quiz_results
        runOutcome := some r.outcome }
    | _ =>
      { state := s
        pipelineRan := false
        servedAnalysis := none
        servedQuiz := none
        runOutcome := none }

/-- The points inside the analyze branch where an unexpected exception can
hand an intermediate state to the outer handler, keyed by which of the
mutation sites (lines 293, 421, 499, 500) have already executed. -/
inductive RunPhase where
  | statusSet
  | analysisStored (knowledge_text : String)
  | quizStored (knowledge_text quiz_content : String)
  | hashStored (knowledge_text quiz_content file_hash : String)

/-- The session state at each `RunPhase`. -/
def intermediateState (s : SessionState) : RunPhase → SessionState
  | .statusSet => { s with processing_status := "processing" }
  | .analysisStored k =>
    { s with processing_status := "processing", analysis_results := some k }
  | .quizStored k q =>
    { s with
      processing_status := "processing"
      analysis_results := some k
      quiz_results := some q }
  | .hashStored k q h =>
    { s with
      processing_status := "processing"
      analysis_results := some k
      quiz_results := some q
      processed_file_hash := some h }

/-- The session states the interactive app can reach: a fresh session, any
script execution (cache hit, reprocess, analyze run), the sidebar key
validation writing `api_keys_validated`, any intermediate state of a run in
flight, and the outer exception handler fired at any such point. -/
inductive Reachable : SessionState → Prop where
  | init : Reachable initialState
  | step (s : SessionState) (file_hash : String) (ev : UserEvent) :
      Reachable s → Reachable (scriptStep s file_hash ev).state
  | setKeys (s : SessionState) (b : Bool) :
      Reachable s → Reachable { s with api_keys_validated := b }
  | mid (s : SessionState) (ph : RunPhase) :
      Reachable s → Reachable (intermediateState s ph)
  | unexpected (s : SessionState) (ph : RunPhase) (temp_files : List String) :
      Reachable s →
      Reachable (outerExceptionHandler (intermediateState s ph) temp_files).1

/-! ## Config loader (`utils.py`, `AppConfig`, lines 9-103) -/

/-- The exceptions the `AppConfig` getters catch: `configparser.NoSectionError`,
`configparser.NoOptionError`, `ValueError`. -/
inductive ConfigError where
  | noSection
  | noOption
  | valueError
deriving DecidableEq, Repr

/-- The parsed INI data held by `configparser.ConfigParser`: sections of
key/value string pairs. -/
def ConfigData : Type := List (String × List (String × String))

/-- Raw `ConfigParser` lookup without a fallback: raises `NoSectionError` or
`NoOptionError` when the section or key is absent. -/
def rawGet (cfg : ConfigData) (section_ key : String) :
    Except ConfigError String :=
  match cfg.find? (fun sec => sec.1 = section_) with
  | none => .error .noSection
  | some sec =>
    match sec.2.find? (fun kv => kv.1 = key) with
    | none => .error .noOption
    | some kv => .ok kv.2

/-- Python `int(value)` on a configparser string: strip whitespace, optional
sign, decimal digits; anything else raises `ValueError` (digit-group
underscores are omitted, which only shrinks the success set). -/
def pyParseInt (s : String) : Except ConfigError Int :=
  let t := pyStrip s
  let core : Int × List Char :=
    match t.toList with
    | '-' :: rest => (-1, rest)
    | '+' :: rest => (1, rest)
    | l => (1, l)
  if core.2.isEmpty || ¬ core.2.all Char.isDigit then .error .valueError
  else
    .ok (core.1 * (core.2.foldl (fun a c => 10 * a + (c.toNat - '0'.toNat)) 0 : Nat))

/-- The `BOOLEAN_STATES` conversion that `configparser` applies in
`getboolean`:
case-insensitive `1/yes/true/on` and `0/no/false/off`; anything else raises
`ValueError`. -/
def pyParseBool (s : String) : Except ConfigError Bool :=
  let t := pyLower s
  if t = "1" ∨ t = "yes" ∨ t = "true" ∨ t = "on" then .ok true
  else if t = "0" ∨ t = "no" ∨ t = "false" ∨ t = "off" then .ok false
  else .error .valueError

/-- The `AppConfig` wrapper (utils.py line 9): holds the parsed settings. -/
structure AppConfig where
  config : ConfigData

/-- `AppConfig.get` (utils.py lines 73-78): `config.get(section, key,
fallback=fallback)` returns the fallback on a missing section or key; the
surrounding `try/except` additionally catches `NoSectionError`/`NoOptionError`,
so the method never raises. -/
def AppConfig.get (c : AppConfig) (section_ key : String)
    (fallback : Option String) : Option String :=
  match rawGet c.config section_ key with
  | .ok v => some v
  | .error _ => fallback

/-- `AppConfig.get_int` (utils.py lines 80-85): missing section/key gives the
fallback via configparser; a present value that `int()` cannot parse raises
`ValueError`, caught by the method, giving the fallback. -/
def AppConfig.get_int (c : AppConfig) (section_ key : String)
    (fallback : Int) : Int :=
  match rawGet c.config section_ key with
  | .error _ => fallback
  | .ok v =>
    match pyParseInt v with
    | .ok n => n
    | .error _ => fallback

/-- `AppConfig.get_bool` (utils.py lines 87-92), via `getboolean`. -/
def AppConfig.get_bool (c : AppConfig) (section_ key : String)
    (fallback : Bool) : Bool :=
  match rawGet c.config section_ key with
  | .error _ => fallback
  | .ok v =>
    match pyParseBool v with
    | .ok b => b
    | .error _ => fallback

/-- `AppConfig.get_list` (utils.py lines 94-103): a `None` fallback becomes
`[]`; `config.get(section, key)` without a fallback raises on a missing
section/key, caught by the method, giving the fallback; a present value is
comma-split, trimmed, with empty items dropped. -/
def AppConfig.get_list (c : AppConfig) (section_ key : String)
    (fallback : Option (List String)) : List String :=
  let fb := fallback.getD []
  match rawGet c.config section_ key with
  | .error _ => fb
  | .ok v =>
    (((pySplitChar ',' v.toList).map (fun item => pyStrip (String.mk item))).filter
      (fun item => ¬ item.isEmpty))

/-! ## The Version 2 batch script (`src/unnamed/part_000`, lines 151-284)

Straight-line module scope: the names bound before the line
`knowledge_text = convert_test` (line 242) are the imports (lines 152-159)
and the assignment targets executed before it. -/

/-- The names the Version 2 script imports (part_000 lines 152-159). -/
def version2ImportedNames : List String :=
  ["Path", "Video", "Groq", "Gemini", "Document", "Agent", "RunResponse",
   "DuckDuckGoTools", "pprint_run_response"]

/-- Every assignment target that can have executed in the Version 2 script
before line 242 (`user_video_path`/`video_path` in the input loop, the
MongoDB constants, the `with open` target `f`, `video_bytes`, the except
binder `e`, `video_obj`, `video_agent`, `video_description_prompt`,
`response`). -/
def version2AssignedBeforeQuiz : List String :=
  ["user_video_path", "video_path", "MDB_CONNECTION_STRING",
   "DB_COLLECTION_NAME", "f", "video_bytes", "e", "video_obj", "video_agent",
   "video_description_prompt", "response"]

/-- All module-scope names bound in the Version 2 script when control
reaches line 242 (`convert_test` is also not a Python builtin). -/
def version2BoundNames : List String :=
  version2ImportedNames ++ version2AssignedBeforeQuiz

/-- The error a Python name resolution can produce. -/
inductive PyNameError where
  | nameError (name : String)
deriving DecidableEq, Repr

/-- Resolving a name against the bound names of a scope: `NameError` when
unbound. -/
def resolveName (scope : List String) (x : String) : Except PyNameError Unit :=
  if x ∈ scope then .ok () else .error (.nameError x)

/-- Line 242 of part_000, `knowledge_text = convert_test`: evaluating the
right-hand side resolves `convert_test` in the own scope of the script. -/
def version2KnowledgeTextAssignment : Except PyNameError Unit :=
  resolveName version2BoundNames "convert_test"

/-- The Version 2 quiz-generation step (part_000 lines 242-283): first the
`knowledge_text = convert_test` assignment must evaluate, then the quiz
prompt is built from `knowledge_text` and the quiz agent is invoked
(modelled by the oracle `runQuizAgent`). -/
def version2QuizStep (runQuizAgent : String → String) :
    Except PyNameError String :=
  match version2KnowledgeTextAssignment with
  | .error e => .error e
  | .ok _ => .ok (runQuizAgent "knowledge_text")

/-! ## Helper lemmas -/

/-- A separator-free character list is returned whole by `pySplitChar`. -/
lemma pySplitChar_eq_of_not_mem (sep : Char) (l : List Char) (h : sep ∉ l) :
    pySplitChar sep l = [l] := by
  induction l with
  | nil => rfl
  | cons c rest ih =>
    have hc : c ≠ sep := fun hcs => h (hcs ▸ List.mem_cons_self c rest)
    have hrest : sep ∉ rest := fun hm => h (List.mem_cons_of_mem c hm)
    simp [pySplitChar, hc, ih hrest]

/-- Rebuilding a string from its character list is the identity. -/
lemma String.mk_toList (s : String) : String.mk s.toList = s := by
  cases s
  rfl

/-- On a dot-free filename, `file_extension_of` is the whole lowercased
name. -/
lemma file_extension_of_no_dot (name : String) (h : '.' ∉ name.toList) :
    file_extension_of name = pyLower name := by
  rw [file_extension_of, pySplitChar_eq_of_not_mem '.' name.toList h]
  simp [String.mk_toList]

/-! ## Claim theorems: validation -/

/-- C3: for every uploaded file, `validate_video_file` rejects exactly when
the size in megabytes exceeds `MAX_FILE_SIZE_MB` (500), or the lowercased
last-dot extension is not in `SUPPORTED_VIDEO_FORMATS`, or the size is
zero; the checks fire in the order size, extension, emptiness, each with
its own message, and otherwise the file is accepted. -/
theorem c3_validate_video_file_spec (f : UploadedFile) :
    validate_video_file none = (false, .noFileUploaded)
    ∧ ((validate_video_file (some f)).1 = false ↔
      ((f.size : ℚ) / (1024 * 1024) > (MAX_FILE_SIZE_MB : ℚ)
        ∨ file_extension_of f.name ∉ SUPPORTED_VIDEO_FORMATS
        ∨ f.size = 0))
    ∧ ((f.size : ℚ) / (1024 * 1024) > (MAX_FILE_SIZE_MB : ℚ) →
        validate_video_file (some f) = (false, .exceedsMaxSize))
    ∧ (¬ (f.size : ℚ) / (1024 * 1024) > (MAX_FILE_SIZE_MB : ℚ) →
        file_extension_of f.name ∉ SUPPORTED_VIDEO_FORMATS →
        validate_video_file (some f) = (false, .unsupportedFormat))
    ∧ (¬ (f.size : ℚ) / (1024 * 1024) > (MAX_FILE_SIZE_MB : ℚ) →
        file_extension_of f.name ∈ SUPPORTED_VIDEO_FORMATS →
        f.size = 0 →
        validate_video_file (some f) = (false, .fileIsEmpty))
    ∧ (¬ (f.size : ℚ) / (1024 * 1024) > (MAX_FILE_SIZE_MB : ℚ) →
        file_extension_of f.name ∈ SUPPORTED_VIDEO_FORMATS →
        f.size ≠ 0 →
        validate_video_file (some f) = (true, .validationSuccessful)) := by
  refine ⟨rfl, ?_⟩
  simp only [validate_video_file]
  split_ifs with h1 h2 h3 <;> simp_all

/-- Witness for C3: a zero-byte `.mp4` file is rejected as empty. -/
theorem c3_validate_video_file_spec_witness :
    validate_video_file (some ⟨"video.mp4", 0⟩) = (false, .fileIsEmpty) :=
  (c3_validate_video_file_spec ⟨"video.mp4", 0⟩).2.2.2.2.1
    (by norm_num [MAX_FILE_SIZE_MB]) (by decide) rfl

/-- C10: on a filename with no dot, the computed extension is the whole
lowercased name, so (when the size check passes) the file is rejected by the
extension check unless that lowercased name is itself in the allow-list, in
which case it is accepted. -/
theorem c10_extension_no_dot (f : UploadedFile) (hnd : '.' ∉ f.name.toList) :
    file_extension_of f.name = pyLower f.name
    ∧ (¬ (f.size : ℚ) / (1024 * 1024) > (MAX_FILE_SIZE_MB : ℚ) →
        pyLower f.name ∉ SUPPORTED_VIDEO_FORMATS →
        validate_video_file (some f) = (false, .unsupportedFormat))
    ∧ (¬ (f.size : ℚ) / (1024 * 1024) > (MAX_FILE_SIZE_MB : ℚ) →
        f.size ≠ 0 →
        ((validate_video_file (some f)).1 = true ↔
          pyLower f.name ∈ SUPPORTED_VIDEO_FORMATS)) := by
  have hext := file_extension_of_no_dot f.name hnd
  refine ⟨hext, ?_, ?_⟩
  · intro hsize hfmt
    simp only [validate_video_file, hext]
    split_ifs <;> simp_all
  · intro hsize hnz
    simp only [validate_video_file, hext]
    split_ifs <;> simp_all

/-- Witness for C10: the dot-free filename `README` is rejected by the
extension check, while the dot-free filename `mp4` happens to be accepted. -/
theorem c10_extension_no_dot_witness :
    file_extension_of "README" = "readme"
    ∧ validate_video_file (some ⟨"README", 10⟩) = (false, .unsupportedFormat)
    ∧ (validate_video_file (some ⟨"mp4", 10⟩)).1 = true := by
  have h1 := c10_extension_no_dot ⟨"README", 10⟩ (by decide)
  have h2 := c10_extension_no_dot ⟨"mp4", 10⟩ (by decide)
  refine ⟨h1.1, ?_, ?_⟩
  · exact h1.2.1 (by norm_num [MAX_FILE_SIZE_MB]) (by decide)
  · exact (h2.2.2 (by norm_num [MAX_FILE_SIZE_MB]) (by decide)).mpr (by decide)

/-! ## Claim theorems: config loader -/

/-- C5: each typed getter of `AppConfig` returns exactly the caller-supplied
fallback when the section or key is missing (`rawGet` raises) or, for the
int and bool getters, when the stored value fails to parse as the requested
type; the getters are total functions, so no exception escapes. -/
theorem c5_typed_getters_fallback (c : AppConfig) (section_ key : String) :
    (∀ (fb : Option String) (e : ConfigError),
      rawGet c.config section_ key = .error e →
      AppConfig.get c section_ key fb = fb)
    ∧ (∀ fb : Int,
        ((∃ e, rawGet c.config section_ key = .error e)
          ∨ (∃ v e, rawGet c.config section_ key = .ok v ∧
              pyParseInt v = .error e)) →
        AppConfig.get_int c section_ key fb = fb)
    ∧ (∀ fb : Bool,
        ((∃ e, rawGet c.config section_ key = .error e)
          ∨ (∃ v e, rawGet c.config section_ key = .ok v ∧
              pyParseBool v = .error e)) →
        AppConfig.get_bool c section_ key fb = fb)
    ∧ (∀ (fb : List String) (e : ConfigError),
        rawGet c.config section_ key = .error e →
        AppConfig.get_list c section_ key (some fb) = fb) := by
  refine ⟨?_, ?_, ?_, ?_⟩
  · intro fb e he
    simp [AppConfig.get, he]
  · rintro fb (⟨e, he⟩ | ⟨v, e, hv, hp⟩)
    · simp [AppConfig.get_int, he]
    · simp [AppConfig.get_int, hv, hp]
  · rintro fb (⟨e, he⟩ | ⟨v, e, hv, hp⟩)
    · simp [AppConfig.get_bool, he]
    · simp [AppConfig.get_bool, hv, hp]
  · intro fb e he
    simp [AppConfig.get_list, he]

/-- Witness for C5: on an empty config, every getter returns its fallback,
and an unparsable int value also falls back. -/
theorem c5_typed_getters_fallback_witness :
    AppConfig.get ⟨[]⟩ "app" "x" (some "dflt") = some "dflt"
    ∧ AppConfig.get_int ⟨[]⟩ "app" "x" 7 = 7
    ∧ AppConfig.get_bool ⟨[]⟩ "app" "x" true = true
    ∧ AppConfig.get_list ⟨[]⟩ "app" "x" (some ["a", "b"]) = ["a", "b"]
    ∧ AppConfig.get_int ⟨[("app", [("x", "oops")])]⟩ "app" "x" 7 = 7 := by
  have h1 := c5_typed_getters_fallback ⟨[]⟩ "app" "x"
  have h2 := c5_typed_getters_fallback ⟨[("app", [("x", "oops")])]⟩ "app" "x"
  exact ⟨h1.1 (some "dflt") .noSection rfl,
    h1.2.1 7 (Or.inl ⟨.noSection, rfl⟩),
    h1.2.2.1 true (Or.inl ⟨.noSection, rfl⟩),
    h1.2.2.2 ["a", "b"] .noSection rfl,
    h2.2.1 7 (Or.inr ⟨"oops", .valueError, rfl, rfl⟩)⟩

/-! ## Claim theorems: the Version 2 batch script defect -/

/-- C8: in the Version 2 batch script, the right-hand side of
`knowledge_text = convert_test` resolves a name bound nowhere in that
script before that line, so every run reaching the quiz-generation step
fails with a `NameError` instead of producing a quiz, whatever the quiz
agent would have answered. -/
theorem c8_version2_convert_test_unbound :
    "convert_test" ∉ version2BoundNames
    ∧ version2KnowledgeTextAssignment = .error (.nameError "convert_test")
    ∧ ∀ runQuizAgent : String → String,
        version2QuizStep runQuizAgent = .error (.nameError "convert_test") := by
  have h : version2KnowledgeTextAssignment
      = .error (.nameError "convert_test") := rfl
  exact ⟨by decide, h, fun rq => by simp [version2QuizStep, h]⟩

/-! ## Claim theorems: retry policy -/

/-- A value produced by a successful retry loop came from some attempt. -/
lemma retryLoopAux_success_attempt (attempt : Nat → Option α)
    (remaining retryCount : Nat) (sleepLog : List Nat) (v : α)
    (a : Nat) (l : List Nat)
    (h : retryLoopAux attempt remaining retryCount sleepLog
      = .success v a l) :
    ∃ i, attempt i = some v := by
  induction remaining generalizing retryCount sleepLog with
  | zero => simp [retryLoopAux] at h
  | succ r ih =>
    rw [retryLoopAux] at h
    rcases ha : attempt retryCount with _ | w
    · rw [ha] at h
      by_cases hr : r = 0
      · simp [hr] at h
      · rw [if_neg hr] at h
        exact ih _ _ h
    · rw [ha] at h
      simp only [RetryResult.success.injEq] at h
      exact ⟨retryCount, by rw [ha, h.1]⟩

/-- The content a successful analysis attempt returns is nonempty and at
least 50 characters after stripping. -/
lemma analysisAttempt_some (responses : Nat → Except String String)
    (i : Nat) (v : String) (h : analysisAttempt responses i = some v) :
    v.isEmpty = false ∧ 50 ≤ (pyStrip v).length := by
  unfold analysisAttempt at h
  split at h
  · simp at h
  · split at h
    · simp at h
    · rename_i hcond
      injection h with h
      subst h
      simp only [Bool.or_eq_true, decide_eq_true_eq, not_or] at hcond
      push_neg at hcond
      exact ⟨by simpa using hcond.1, by omega⟩

/-- The content a successful quiz attempt returns is nonempty and at least
100 characters after stripping. -/
lemma quizAttempt_some (responses : Nat → Except String String)
    (i : Nat) (v : String) (h : quizAttempt responses i = some v) :
    v.isEmpty = false ∧ 100 ≤ (pyStrip v).length := by
  unfold quizAttempt at h
  split at h
  · simp at h
  · split at h
    · simp at h
    · rename_i hcond
      injection h with h
      subst h
      simp only [Bool.or_eq_true, decide_eq_true_eq, not_or] at hcond
      push_neg at hcond
      exact ⟨by simpa using hcond.1, by omega⟩

/-- C2: for any attempt oracle, if every attempt fails the loop makes
exactly `max_retries` (3) attempts and sleeps exactly twice — the fixed
2-second interval between consecutive attempts, none after the last — and
if some attempt succeeds first at index `k`, the loop stops right there
with `k + 1` attempts and one 2-second sleep per preceding failure. -/
theorem c2_retry_loop_policy (attempt : Nat → Option String) :
    ((∀ i, i < max_retries → attempt i = none) →
      retryLoop attempt max_retries =
        .failure max_retries
          (List.replicate (max_retries - 1) sleep_interval_seconds))
    ∧ (∀ k v, k < max_retries → attempt k = some v →
        (∀ j, j < k → attempt j = none) →
        retryLoop attempt max_retries =
          .success v (k + 1) (List.replicate k sleep_interval_seconds)) := by
  constructor
  · intro h
    have h0 := h 0 (by norm_num [max_retries])
    have h1 := h 1 (by norm_num [max_retries])
    have h2 := h 2 (by norm_num [max_retries])
    simp [retryLoop, retryLoopAux, max_retries, h0, h1, h2,
      sleep_interval_seconds, List.replicate]
  · intro k v hk hv hj
    have hk3 : k < 3 := by simpa [max_retries] using hk
    interval_cases k
    · simp [retryLoop, retryLoopAux, max_retries, hv, List.replicate]
    · have h0 := hj 0 (by norm_num)
      simp [retryLoop, retryLoopAux, max_retries, h0, hv,
        sleep_interval_seconds, List.replicate]
    · have h0 := hj 0 (by norm_num)
      have h1 := hj 1 (by norm_num)
      simp [retryLoop, retryLoopAux, max_retries, h0, h1, hv,
        sleep_interval_seconds, List.replicate]

/-- Witness for C2: with every attempt failing the loop reports failure
after 3 attempts and two 2-second sleeps; with the second attempt
succeeding it stops at 2 attempts and one sleep. -/
theorem c2_retry_loop_policy_witness :
    retryLoop (fun _ => (none : Option String)) max_retries
      = .failure max_retries
          (List.replicate (max_retries - 1) sleep_interval_seconds)
    ∧ retryLoop (fun i => if i = 1 then some "ok" else none) max_retries
      = .success "ok" 2 (List.replicate 1 sleep_interval_seconds) := by
  constructor
  · exact (c2_retry_loop_policy (fun _ => none)).1 (fun i _ => rfl)
  · exact (c2_retry_loop_policy (fun i => if i = 1 then some "ok" else none)).2
      1 "ok" (by norm_num [max_retries]) rfl
      (fun j hj => by interval_cases j <;> rfl)

/-- C6: a description response whose stripped length is under 50, and a
quiz response whose stripped length is under 100, each make that attempt
fail, and the retry loop behaves exactly as if the model call itself had
raised on that attempt. -/
theorem c6_short_output_is_failure
    (responses : Nat → Except String String) (i : Nat) (c err : String) :
    (responses i = .ok c → (pyStrip c).length < 50 →
      analysisAttempt responses i = none
      ∧ retryLoop
          (analysisAttempt (Function.update responses i (.error err)))
          max_retries
        = retryLoop (analysisAttempt responses) max_retries)
    ∧ (responses i = .ok c → (pyStrip c).length < 100 →
      quizAttempt responses i = none
      ∧ retryLoop (quizAttempt (Function.update responses i (.error err)))
          max_retries
        = retryLoop (quizAttempt responses) max_retries) := by
  constructor
  · intro hok hshort
    have hnone : analysisAttempt responses i = none := by
      simp [analysisAttempt, hok, hshort]
    refine ⟨hnone, ?_⟩
    have hfun : analysisAttempt (Function.update responses i (.error err))
        = analysisAttempt responses := by
      funext j
      by_cases hji : j = i
      · subst hji
        calc analysisAttempt (Function.update responses j (.error err)) j
            = none := by simp [analysisAttempt, Function.update_same]
          _ = analysisAttempt responses j := hnone.symm
      · simp [analysisAttempt, Function.update_noteq hji]
    rw [hfun]
  · intro hok hshort
    have hnone : quizAttempt responses i = none := by
      simp [quizAttempt, hok, hshort]
    refine ⟨hnone, ?_⟩
    have hfun : quizAttempt (Function.update responses i (.error err))
        = quizAttempt responses := by
      funext j
      by_cases hji : j = i
      · subst hji
        calc quizAttempt (Function.update responses j (.error err)) j
            = none := by simp [quizAttempt, Function.update_same]
          _ = quizAttempt responses j := hnone.symm
      · simp [quizAttempt, Function.update_noteq hji]
    rw [hfun]

/-- Witness for C6: a 10-character response is a failed attempt for both
steps, interchangeable with a raised call error. -/
theorem c6_short_output_is_failure_witness :
    analysisAttempt (fun _ => .ok "too short.") 0 = none
    ∧ quizAttempt (fun _ => .ok "too short.") 0 = none
    ∧ retryLoop
        (analysisAttempt
          (Function.update (fun _ => Except.ok "too short.") 0
            (Except.error "api down")))
        max_retries
      = retryLoop (analysisAttempt (fun _ => .ok "too short.")) max_retries := by
  have h := c6_short_output_is_failure (fun _ => .ok "too short.") 0
    "too short." "api down"
  have ha := h.1 rfl (by decide)
  have hq := h.2 rfl (by decide)
  exact ⟨ha.1, hq.1, ha.2⟩

/-! ## Claim theorems: the processing run, caching, invariants, cleanup -/

/-- Exhaustive description of one analyze run: the status always returns to
idle, cleanup is always called with the temp-file list, and the session
fields change exactly as the exit path dictates. -/
lemma processRun_shape (s : SessionState) (fh : String) (inp : RunInputs) :
    (processRun s fh inp).state.processing_status = "idle"
    ∧ (processRun s fh inp).state.api_keys_validated = s.api_keys_validated
    ∧ (processRun s fh inp).cleanupCalledWith = some [inp.videoPath]
    ∧ ((((processRun s fh inp).outcome = RunOutcome.loadFailure
          ∨ (processRun s fh inp).outcome = RunOutcome.analysisFailed)
        ∧ (processRun s fh inp).state.analysis_results = s.analysis_results
        ∧ (processRun s fh inp).state.quiz_results = s.quiz_results
        ∧ (processRun s fh inp).state.processed_file_hash
            = s.processed_file_hash)
      ∨ (∃ k i1 l1,
          retryLoop (analysisAttempt inp.analysisResponses) max_retries
            = RetryResult.success k i1 l1
          ∧ (processRun s fh inp).outcome = RunOutcome.quizFailed
          ∧ (processRun s fh inp).state.analysis_results = some k
          ∧ (processRun s fh inp).state.quiz_results = s.quiz_results
          ∧ (processRun s fh inp).state.processed_file_hash
              = s.processed_file_hash)
      ∨ (∃ k i1 l1 q i2 l2,
          retryLoop (analysisAttempt inp.analysisResponses) max_retries
            = RetryResult.success k i1 l1
          ∧ retryLoop (quizAttempt inp.quizResponses) max_retries
            = RetryResult.success q i2 l2
          ∧ (processRun s fh inp).outcome = RunOutcome.completed
          ∧ (processRun s fh inp).state.analysis_results = some k
          ∧ (processRun s fh inp).state.quiz_results = some q
          ∧ (processRun s fh inp).state.processed_file_hash = some fh)) := by
  by_cases hl : inp.loadOk
  · rcases hA : retryLoop (analysisAttempt inp.analysisResponses) max_retries
      with ⟨k, i1, l1⟩ | ⟨i1, l1⟩
    · rcases hQ : retryLoop (quizAttempt inp.quizResponses) max_retries
        with ⟨q, i2, l2⟩ | ⟨i2, l2⟩
      · have hr : processRun s fh inp =
            { state :=
                { s with
                  processing_status := "idle"
                  analysis_results := some k
                  quiz_results := some q
                  processed_file_hash := some fh }
              outcome := .completed
              cleanupCalledWith := some [inp.videoPath] } := by
          simp [processRun, hl, hA, hQ]
        rw [hr]
        exact ⟨rfl, rfl, rfl,
          Or.inr (Or.inr ⟨k, i1, l1, q, i2, l2, rfl, rfl, rfl, rfl, rfl, rfl⟩)⟩
      · have hr : processRun s fh inp =
            { state :=
                { s with
                  processing_status := "idle"
                  analysis_results := some k }
              outcome := .quizFailed
              cleanupCalledWith := some [inp.videoPath] } := by
          simp [processRun, hl, hA, hQ]
        rw [hr]
        exact ⟨rfl, rfl, rfl,
          Or.inr (Or.inl ⟨k, i1, l1, rfl, rfl, rfl, rfl, rfl⟩)⟩
    · have hr : processRun s fh inp =
          { state := { s with processing_status := "idle" }
            outcome := .analysisFailed
            cleanupCalledWith := some [inp.videoPath] } := by
        simp [processRun, hl, hA]
      rw [hr]
      exact ⟨rfl, rfl, rfl, Or.inl ⟨Or.inr rfl, rfl, rfl, rfl⟩⟩
  · have hr : processRun s fh inp =
        { state := { s with processing_status := "idle" }
          outcome := .loadFailure
          cleanupCalledWith := some [inp.videoPath] } := by
      simp [processRun, hl]
    rw [hr]
    exact ⟨rfl, rfl, rfl, Or.inl ⟨Or.inl rfl, rfl, rfl, rfl⟩⟩

/-- Counterexample to C1 as stated: from a fresh session, a run whose
description step succeeds (a 50-character response) and whose quiz step
exhausts its retries leaves the description of that run stored in
`analysis_results` — the session does NOT return to idle with no stored
artifact from the run. -/
theorem c1_counterexample_partial_result_persists :
    (processRun initialState "cafebabe"
        ⟨"/tmp/video.mp4", true,
          fun _ => Except.ok "01234567890123456789012345678901234567890123456789",
          fun _ => Except.error "Groq API unavailable"⟩).outcome
      = RunOutcome.quizFailed
    ∧ (processRun initialState "cafebabe"
        ⟨"/tmp/video.mp4", true,
          fun _ => Except.ok "01234567890123456789012345678901234567890123456789",
          fun _ => Except.error "Groq API unavailable"⟩).state.analysis_results
      = some "01234567890123456789012345678901234567890123456789"
    ∧ ¬ (processRun initialState "cafebabe"
        ⟨"/tmp/video.mp4", true,
          fun _ => Except.ok "01234567890123456789012345678901234567890123456789",
          fun _ => Except.error "Groq API unavailable"⟩).state.analysis_results
      = none := by
  have h2 :
      (processRun initialState "cafebabe"
        ⟨"/tmp/video.mp4", true,
          fun _ => Except.ok "01234567890123456789012345678901234567890123456789",
          fun _ => Except.error "Groq API unavailable"⟩).state.analysis_results
      = some "01234567890123456789012345678901234567890123456789" := rfl
  refine ⟨rfl, h2, ?_⟩
  rw [h2]
  simp

/-- C1 as amended: every run returns the status to idle; on full completion
both results and the content hash are stored; on load failure or
description-retry exhaustion all three cache fields are unchanged; but on a
run whose description succeeded and whose quiz step exhausted its retries,
the description of that run remains stored in `analysis_results`, with
`quiz_results` and `processed_file_hash` unchanged (so the completed-pair
hash is never set for a partial run). -/
theorem c1_amended_partial_persistence (s : SessionState) (fh : String)
    (inp : RunInputs) :
    (processRun s fh inp).state.processing_status = "idle"
    ∧ ((processRun s fh inp).outcome = RunOutcome.completed →
        ∃ k q, (processRun s fh inp).state.analysis_results = some k
          ∧ (processRun s fh inp).state.quiz_results = some q
          ∧ (processRun s fh inp).state.processed_file_hash = some fh)
    ∧ ((processRun s fh inp).outcome = RunOutcome.loadFailure
        ∨ (processRun s fh inp).outcome = RunOutcome.analysisFailed →
        (processRun s fh inp).state.analysis_results = s.analysis_results
          ∧ (processRun s fh inp).state.quiz_results = s.quiz_results
          ∧ (processRun s fh inp).state.processed_file_hash
              = s.processed_file_hash)
    ∧ ((processRun s fh inp).outcome = RunOutcome.quizFailed →
        (∃ k, (processRun s fh inp).state.analysis_results = some k)
          ∧ (processRun s fh inp).state.quiz_results = s.quiz_results
          ∧ (processRun s fh inp).state.processed_file_hash
              = s.processed_file_hash) := by
  obtain ⟨hst, hapi, hcl, hcases⟩ := processRun_shape s fh inp
  refine ⟨hst, ?_, ?_, ?_⟩
  · intro hc
    rcases hcases with ⟨ho | ho, _⟩ | ⟨k, i1, l1, _, ho, _⟩
      | ⟨k, i1, l1, q, i2, l2, _, _, ho, ha, hq, hh⟩
    · rw [ho] at hc
      simp at hc
    · rw [ho] at hc
      simp at hc
    · rw [ho] at hc
      simp at hc
    · exact ⟨k, q, ha, hq, hh⟩
  · intro hc
    rcases hcases with ⟨_, ha, hq, hh⟩ | ⟨k, i1, l1, _, ho, _⟩
      | ⟨k, i1, l1, q, i2, l2, _, _, ho, _⟩
    · exact ⟨ha, hq, hh⟩
    · rcases hc with hc | hc <;> rw [ho] at hc <;> simp at hc
    · rcases hc with hc | hc <;> rw [ho] at hc <;> simp at hc
  · intro hc
    rcases hcases with ⟨ho | ho, _⟩ | ⟨k, i1, l1, _, ho, ha, hq, hh⟩
      | ⟨k, i1, l1, q, i2, l2, _, _, ho, _⟩
    · rw [ho] at hc
      simp at hc
    · rw [ho] at hc
      simp at hc
    · exact ⟨⟨k, ha⟩, hq, hh⟩
    · rw [ho] at hc
      simp at hc

/-- Witness for the amended C1: concrete full-success and quiz-failure
runs from a fresh session show the three behaviors. -/
theorem c1_amended_partial_persistence_witness :
    (processRun initialState "beef"
        ⟨"/tmp/a.mp4", true,
          fun _ => Except.ok "01234567890123456789012345678901234567890123456789",
          fun _ => Except.error "down"⟩).state.processing_status = "idle"
    ∧ ((∃ k,
        (processRun initialState "beef"
          ⟨"/tmp/a.mp4", true,
            fun _ => Except.ok "01234567890123456789012345678901234567890123456789",
            fun _ => Except.error "down"⟩).state.analysis_results = some k)
      ∧ (processRun initialState "beef"
          ⟨"/tmp/a.mp4", true,
            fun _ => Except.ok "01234567890123456789012345678901234567890123456789",
            fun _ => Except.error "down"⟩).state.quiz_results
          = initialState.quiz_results
      ∧ (processRun initialState "beef"
          ⟨"/tmp/a.mp4", true,
            fun _ => Except.ok "01234567890123456789012345678901234567890123456789",
            fun _ => Except.error "down"⟩).state.processed_file_hash
          = initialState.processed_file_hash) := by
  refine ⟨(c1_amended_partial_persistence initialState "beef" _).1, ?_⟩
  exact (c1_amended_partial_persistence initialState "beef"
    ⟨"/tmp/a.mp4", true,
      fun _ => Except.ok "01234567890123456789012345678901234567890123456789",
      fun _ => Except.error "down"⟩).2.2.2 rfl

/-- C9: in every reachable session state, a non-null `processed_file_hash`
implies both `analysis_results` and `quiz_results` are non-null: the hash is
assigned only after both results are stored, and reprocess clears all three
together. -/
theorem c9_hash_implies_both_results (s : SessionState) (hr : Reachable s) :
    s.processed_file_hash ≠ none →
    s.analysis_results ≠ none ∧ s.quiz_results ≠ none := by
  induction hr with
  | init =>
    intro hh
    exact absurd rfl hh
  | step s fh ev hr ih =>
    by_cases hc : cacheHit s fh
    · cases ev with
      | reprocessClick =>
        intro hh
        simp [scriptStep, hc, reprocessReset] at hh
      | view =>
        simpa [scriptStep, hc] using ih
      | analyzeClick inp =>
        simpa [scriptStep, hc] using ih
    · cases ev with
      | view =>
        simpa [scriptStep, hc] using ih
      | reprocessClick =>
        simpa [scriptStep, hc] using ih
      | analyzeClick inp =>
        have hstep : (scriptStep s fh (.analyzeClick inp)).state
            = (processRun s fh inp).state := by
          simp [scriptStep, hc]
        rw [hstep]
        obtain ⟨hst, hapi, hcl, hcases⟩ := processRun_shape s fh inp
        rcases hcases with ⟨_, ha, hq, hh⟩ | ⟨k, i1, l1, _, ho, ha, hq, hh⟩
          | ⟨k, i1, l1, q, i2, l2, _, _, ho, ha, hq, hh⟩
        · intro hhash
          rw [ha, hq]
          exact ih (by rwa [hh] at hhash)
        · intro hhash
          refine ⟨by rw [ha]; simp, ?_⟩
          rw [hq]
          exact (ih (by rwa [hh] at hhash)).2
        · intro hhash
          rw [ha, hq]
          simp
  | setKeys s b hr ih =>
    simpa using ih
  | mid s ph hr ih =>
    cases ph with
    | statusSet =>
      simpa [intermediateState] using ih
    | analysisStored k =>
      intro hh
      refine ⟨by simp [intermediateState], ?_⟩
      have hh' : s.processed_file_hash ≠ none := by
        simpa [intermediateState] using hh
      simpa [intermediateState] using (ih hh').2
    | quizStored k q =>
      intro hh
      simp [intermediateState]
    | hashStored k q fh2 =>
      intro hh
      simp [intermediateState]
  | unexpected s ph files hr ih =>
    cases ph with
    | statusSet =>
      simpa [intermediateState, outerExceptionHandler] using ih
    | analysisStored k =>
      intro hh
      refine ⟨by simp [intermediateState, outerExceptionHandler], ?_⟩
      have hh' : s.processed_file_hash ≠ none := by
        simpa [intermediateState, outerExceptionHandler] using hh
      simpa [intermediateState, outerExceptionHandler] using (ih hh').2
    | quizStored k q =>
      intro hh
      simp [intermediateState, outerExceptionHandler]
    | hashStored k q fh2 =>
      intro hh
      simp [intermediateState, outerExceptionHandler]

/-- Witness for C9: the state after a concrete fully-successful run from a
fresh session is reachable, has a stored hash, and indeed holds both
results. -/
theorem c9_hash_implies_both_results_witness :
    (scriptStep initialState "beef"
        (.analyzeClick
          ⟨"/tmp/a.mp4", true,
            fun _ => Except.ok "01234567890123456789012345678901234567890123456789",
            fun _ => Except.ok (String.mk (List.replicate 100 'q'))⟩)).state.analysis_results
      ≠ none
    ∧ (scriptStep initialState "beef"
        (.analyzeClick
          ⟨"/tmp/a.mp4", true,
            fun _ => Except.ok "01234567890123456789012345678901234567890123456789",
            fun _ => Except.ok (String.mk (List.replicate 100 'q'))⟩)).state.quiz_results
      ≠ none := by
  apply c9_hash_implies_both_results _
    (Reachable.step initialState "beef" _ Reachable.init)
  rw [show (scriptStep initialState "beef"
      (.analyzeClick
        ⟨"/tmp/a.mp4", true,
          fun _ => Except.ok "01234567890123456789012345678901234567890123456789",
          fun _ => Except.ok (String.mk (List.replicate 100 'q'))⟩)).state.processed_file_hash
    = some "beef" from rfl]
  simp

/-- C4: after a fully completed run for hash `fh`, resubmitting the same
bytes is a cache hit — the pipeline is skipped whatever the user does and
the stored description/quiz pair is served — and clicking Reprocess Video
clears the cache entry so that the next submission of the same bytes misses
the cache and runs the pipeline afresh. -/
theorem c4_cache_hit_and_reprocess (s : SessionState) (fh : String)
    (inp inp2 : RunInputs) (ev : UserEvent)
    (hc : (processRun s fh inp).outcome = RunOutcome.completed) :
    cacheHit (processRun s fh inp).state fh = true
    ∧ (scriptStep (processRun s fh inp).state fh ev).pipelineRan = false
    ∧ (scriptStep (processRun s fh inp).state fh ev).servedAnalysis
        = (processRun s fh inp).state.analysis_results
    ∧ (scriptStep (processRun s fh inp).state fh ev).servedQuiz
        = (processRun s fh inp).state.quiz_results
    ∧ cacheHit
        (scriptStep (processRun s fh inp).state fh
          UserEvent.reprocessClick).state fh = false
    ∧ (scriptStep
        (scriptStep (processRun s fh inp).state fh
          UserEvent.reprocessClick).state fh
        (UserEvent.analyzeClick inp2)).pipelineRan = true := by
  obtain ⟨hst, hapi, hcl, hcases⟩ := processRun_shape s fh inp
  rcases hcases with ⟨ho | ho, _⟩ | ⟨k, i1, l1, _, ho, _⟩
    | ⟨k, i1, l1, q, i2, l2, hA, hQ, ho, ha, hq, hh⟩
  · rw [ho] at hc
    simp at hc
  · rw [ho] at hc
    simp at hc
  · rw [ho] at hc
    simp at hc
  · obtain ⟨ia, hka⟩ := retryLoopAux_success_attempt _ _ _ _ _ _ _ hA
    obtain ⟨iq, hkq⟩ := retryLoopAux_success_attempt _ _ _ _ _ _ _ hQ
    have hkE : k.isEmpty = false := (analysisAttempt_some _ _ _ hka).1
    have hqE : q.isEmpty = false := (quizAttempt_some _ _ _ hkq).1
    have hHit : cacheHit (processRun s fh inp).state fh = true := by
      simp [cacheHit, ha, hq, hh, truthy, hkE, hqE]
    have hReset : (scriptStep (processRun s fh inp).state fh
        UserEvent.reprocessClick).state
        = reprocessReset (processRun s fh inp).state := by
      simp [scriptStep, hHit]
    have hMiss : cacheHit
        (reprocessReset (processRun s fh inp).state) fh = false := rfl
    refine ⟨hHit, ?_, ?_, ?_, ?_, ?_⟩
    · cases ev <;> simp [scriptStep, hHit]
    · cases ev <;> simp [scriptStep, hHit]
    · cases ev <;> simp [scriptStep, hHit]
    · rw [hReset]
      exact hMiss
    · rw [hReset]
      simp [scriptStep, hMiss]

/-- Witness for C4: a concrete completed run from a fresh session, followed
by a second submission of the same bytes (cache hit, no pipeline), a
reprocess click and a third submission (pipeline runs again). -/
theorem c4_cache_hit_and_reprocess_witness :
    cacheHit
      (processRun initialState "beef"
        ⟨"/tmp/a.mp4", true,
          fun _ => Except.ok "01234567890123456789012345678901234567890123456789",
          fun _ => Except.ok (String.mk (List.replicate 100 'q'))⟩).state
      "beef" = true
    ∧ (scriptStep
        (processRun initialState "beef"
          ⟨"/tmp/a.mp4", true,
            fun _ => Except.ok "01234567890123456789012345678901234567890123456789",
            fun _ => Except.ok (String.mk (List.replicate 100 'q'))⟩).state
        "beef" UserEvent.view).pipelineRan = false
    ∧ (scriptStep
        (scriptStep
          (processRun initialState "beef"
            ⟨"/tmp/a.mp4", true,
              fun _ => Except.ok "01234567890123456789012345678901234567890123456789",
              fun _ => Except.ok (String.mk (List.replicate 100 'q'))⟩).state
          "beef" UserEvent.reprocessClick).state
        "beef"
        (UserEvent.analyzeClick
          ⟨"/tmp/a.mp4", true,
            fun _ => Except.ok "01234567890123456789012345678901234567890123456789",
            fun _ => Except.ok (String.mk (List.replicate 100 'q'))⟩)).pipelineRan
      = true := by
  have h := c4_cache_hit_and_reprocess initialState "beef"
    ⟨"/tmp/a.mp4", true,
      fun _ => Except.ok "01234567890123456789012345678901234567890123456789",
      fun _ => Except.ok (String.mk (List.replicate 100 'q'))⟩
    ⟨"/tmp/a.mp4", true,
      fun _ => Except.ok "01234567890123456789012345678901234567890123456789",
      fun _ => Except.ok (String.mk (List.replicate 100 'q'))⟩
    UserEvent.view rfl
  exact ⟨h.1, h.2.1, h.2.2.2.2.2⟩

/-- C7: every exit path of the analyze run passes the temp-file list to
`cleanup_temp_files` (so does the outer exception handler), and
`cleanup_temp_files` itself always returns normally: it visits every path,
logging a warning for a failed deletion instead of propagating it, and
keeps going on the remaining paths. -/
theorem c7_cleanup_on_every_exit (s : SessionState) (fh : String)
    (inp : RunInputs) (files : List String) (exists_ : String → Bool)
    (unlink : String → Except String Unit) :
    (processRun s fh inp).cleanupCalledWith = some [inp.videoPath]
    ∧ (outerExceptionHandler s files).2 = some files
    ∧ cleanup_temp_files exists_ unlink files
        = files.bind (cleanupEntry exists_ unlink)
    ∧ (∀ p rest, cleanup_temp_files exists_ unlink (p :: rest)
        = cleanupEntry exists_ unlink p ++ cleanup_temp_files exists_ unlink rest)
    ∧ (∀ p e, exists_ p = true → unlink p = .error e →
        cleanupEntry exists_ unlink p = [.warning p e]) := by
  refine ⟨(processRun_shape s fh inp).2.2.1, rfl, ?_, ?_, ?_⟩
  · induction files with
    | nil => simp [cleanup_temp_files]
    | cons p rest ih => simp [cleanup_temp_files, ih]
  · intro p rest
    rfl
  · intro p e hex hu
    simp [cleanupEntry, hex, hu]

/-- Witness for C7: a concrete quiz-failure run still calls cleanup with its
temp file, and a concrete failing unlink is logged as a warning while the
next file is still deleted. -/
theorem c7_cleanup_on_every_exit_witness :
    (processRun initialState "beef"
        ⟨"/tmp/a.mp4", true,
          fun _ => Except.ok "01234567890123456789012345678901234567890123456789",
          fun _ => Except.error "down"⟩).cleanupCalledWith
      = some ["/tmp/a.mp4"]
    ∧ cleanupEntry (fun _ => true)
        (fun p => if p = "/tmp/a.mp4" then .error "busy" else .ok ())
        "/tmp/a.mp4"
      = [.warning "/tmp/a.mp4" "busy"]
    ∧ cleanup_temp_files (fun _ => true)
        (fun p => if p = "/tmp/a.mp4" then .error "busy" else .ok ())
        ["/tmp/a.mp4", "/tmp/b.mp4"]
      = [.warning "/tmp/a.mp4" "busy", .info "/tmp/b.mp4"] := by
  have h := c7_cleanup_on_every_exit initialState "beef"
    ⟨"/tmp/a.mp4", true,
      fun _ => Except.ok "01234567890123456789012345678901234567890123456789",
      fun _ => Except.error "down"⟩
    ["/tmp/a.mp4", "/tmp/b.mp4"] (fun _ => true)
    (fun p => if p = "/tmp/a.mp4" then .error "busy" else .ok ())
  refine ⟨h.1, h.2.2.2.2 "/tmp/a.mp4" "busy" rfl (by simp), ?_⟩
  rw [h.2.2.2.1 "/tmp/a.mp4" ["/tmp/b.mp4"]]
  rw [h.2.2.2.2 "/tmp/a.mp4" "busy" rfl (by simp)]
  rfl

end VideoQuiz
